import Mathlib

/-!
# Kaonashi: correlation and dispatch engine

A shallow embedding of `cmd/Kaonashi.go`.  Go strings are Lean strings (valid
UTF-8 text), Go `int`/`int64` values are `Int`, and a Go result pair
`(string, error)` is a pair `String × Option String` whose second component is
the error text (`none` for `nil`).

Everything the program obtains from outside (HTTP round trips, the Telegram
file lookup, file writes, the JSON decoder of the standard library) is taken
from an explicit `Env` record, so every definition below is a computable pure
function.  Calls to `log.Printf` have no effect on the chat, on the lookups or
on the stored configuration and are not recorded.
-/

namespace Kaonashi

set_option maxRecDepth 8192

/-! ## Data model -/

/-- Configuration values (`type Config struct`). -/
structure Config where
  TelegramBotToken : String
  ChatID : Int
  HIBPAPIKey : String
  VTAPIKey : String
deriving DecidableEq, Repr

/-- Inner `Attributes` struct of `VirusTotalResponse`.  The Go field is a
`map[string]interface{}`; it is kept as the list of its entries (engine name,
raw per-engine value), and `len` of the map is zero exactly when the list is
empty. -/
structure VTAttributes where
  LastAnalysisResults : List (String × String)
deriving DecidableEq, Repr

/-- Inner `Data` struct of `VirusTotalResponse` (field `Type` is named `Typ`). -/
structure VTData where
  ID : String
  Typ : String
  Attributes : VTAttributes
deriving DecidableEq, Repr

/-- Response of the malware service (`type VirusTotalResponse struct`). -/
structure VirusTotalResponse where
  Data : VTData
deriving DecidableEq, Repr

/-- One breach entry (`type Breach struct`). -/
structure Breach where
  Name : String
  Domain : String
  BreachDate : String
  Title : String
  Description : String
deriving DecidableEq, Repr

/-! ## Chat transport types (the fields of `tgbotapi` that `main` reads) -/

structure Chat where
  ID : Int
deriving DecidableEq, Repr

structure Document where
  FileID : String
deriving DecidableEq, Repr

/-- The replied-to message; `main` reads only its `Text`. -/
structure RepliedMessage where
  Text : String
deriving DecidableEq, Repr

structure Message where
  Text : String
  Chat : Chat
  ReplyToMessage : Option RepliedMessage
  Document : Option Document
deriving DecidableEq, Repr

structure Update where
  Message : Option Message
deriving DecidableEq, Repr

/-- Result of `bot.GetFile`. -/
structure File where
  FilePath : String
deriving DecidableEq, Repr

/-! ## The outside world -/

/-- An HTTP request as built by `http.NewRequest` and `req.Header.Set`. -/
structure Request where
  Method : String
  URL : String
  Header : List (String × String)
deriving DecidableEq, Repr

/-- An HTTP response: its status code and what `ioutil.ReadAll` gives for its
body (the bytes, or a read error). -/
structure Response where
  StatusCode : Int
  Body : Except String String

/-- Outcome of `ioutil.WriteFile`: success, or an error that leaves some
content (or no file) behind under that name. -/
inductive WriteResult where
  | ok
  | failed (reason : String) (left : Option String)

/-- The file system: file name to content. -/
abbrev Disk := String → Option String

/-- Library and network behaviour during the handling of one update. -/
structure Env where
  /-- Go `http.NewRequest(method, url, nil)`. -/
  NewRequest : String → String → Except String Request
  /-- Go `client.Do(req)`. -/
  Do : Request → Except String Response
  /-- Go `http.Get(url)`. -/
  Get : String → Except String Response
  /-- Go `bot.GetFile(FileConfig)` by file id. -/
  GetFile : String → Except String File
  /-- Go `ioutil.WriteFile(name, content, 0644)`. -/
  WriteFile : String → String → WriteResult
  /-- Go `tgbotapi.NewBotAPI(token)`: the error, if any. -/
  NewBotAPI : String → Option String
  /-- Go `json.Unmarshal` into `[]Breach`. -/
  unmarshalBreaches : String → Except String (List Breach)
  /-- Go `json.Unmarshal` into `VirusTotalResponse`. -/
  unmarshalVT : String → Except String VirusTotalResponse
  /-- Go `json.Unmarshal` into `Config`. -/
  unmarshalConfig : String → Except String Config

/-! ## String helpers of the Go standard library -/

/-- Go `strings.HasPrefix(s, p)`. -/
def HasPrefix (s p : String) : Bool :=
  p.data.isPrefixOf s.data

/-- Go `unicode.IsSpace`. -/
def isSpace (c : Char) : Bool :=
  let n := c.toNat
  (9 ≤ n && n ≤ 13) || n == 32 || n == 0x85 || n == 0xA0 || n == 0x1680 ||
  (0x2000 ≤ n && n ≤ 0x200A) || n == 0x2028 || n == 0x2029 || n == 0x202F ||
  n == 0x205F || n == 0x3000

/-- Go `strings.TrimSpace`: leading and trailing white space removed. -/
def TrimSpace (s : String) : String :=
  String.mk (((s.data.dropWhile isSpace).reverse.dropWhile isSpace).reverse)

/-- Go `ioutil.ReadFile` on the modelled disk (a missing file is the only
failure represented). -/
def ReadFile (disk : Disk) (filename : String) : Except String String :=
  match disk filename with
  | some content => .ok content
  | none => .error ("open " ++ filename ++ ": no such file or directory")

/-- Go `req.Header.Set(key, value)`. -/
def Request.setHeader (req : Request) (key value : String) : Request :=
  { req with Header := (key, value) :: req.Header.filter (fun kv => kv.1 != key) }

/-! ## Lookups -/

/-- Go `loadConfig`.  On an error the returned `Config` is the zero value; `main`
does not read it in that case. -/
def loadConfig (env : Env) (disk : Disk) (filename : String) : Config × Option String :=
  let zero : Config := ⟨"", 0, "", ""⟩
  match ReadFile disk filename with
  | .error err => (zero, some ("Error reading config file: " ++ err))
  | .ok configFile =>
    match env.unmarshalConfig configFile with
    | .error err => (zero, some ("Error unmarshalling config file: " ++ err))
    | .ok config => (config, none)

/-- The text of one breach in the answer (the `fmt.Sprintf` of the loop body
of `checkPwned`). -/
def breachBlock (breach : Breach) : String :=
  "Name: " ++ breach.Name ++ "\nDomain: " ++ breach.Domain ++
  "\nBreach Date: " ++ breach.BreachDate ++ "\nTitle: " ++ breach.Title ++ "\n\n"

def checkPwned (env : Env) (email : String) (hibpAPIKey : String) : String × Option String :=
  let apiURL := "https://haveibeenpwned.com/api/v3/breachedaccount/" ++ email ++
    "?truncateResponse=false"
  match env.NewRequest "GET" apiURL with
  | .error err => ("", some ("Error creating HTTP request: " ++ err))
  | .ok req0 =>
    let req := req0.setHeader "hibp-api-key" hibpAPIKey
    match env.Do req with
    | .error err => ("", some ("Error sending HTTP request: " ++ err))
    | .ok response =>
      match response.Body with
      | .error err => ("", some ("Error reading response body: " ++ err))
      | .ok body =>
        if response.StatusCode = 200 then
          match env.unmarshalBreaches body with
          | .error err => ("", some ("Error parsing JSON response: " ++ err))
          | .ok breaches =>
            if breaches.length = 0 then
              ("Good news! Your email has not been pwned.", none)
            else
              (breaches.foldl (fun responseBuilder breach => responseBuilder ++ breachBlock breach)
                "Your email has been pwned in the following breaches:\n\n", none)
        else if response.StatusCode = 404 then
          ("Good news! Your email has not been pwned.", none)
        else
          ("", some ("Non-OK response code: " ++ toString response.StatusCode ++ " - " ++ body))

def checkMalware (env : Env) (hash : String) (vtAPIKey : String) : String × Option String :=
  let apiURL := "https://www.virustotal.com/api/v3/files/" ++ hash
  match env.NewRequest "GET" apiURL with
  | .error err => ("", some ("Error creating HTTP request: " ++ err))
  | .ok req0 =>
    let req := req0.setHeader "x-apikey" vtAPIKey
    match env.Do req with
    | .error err => ("", some ("Error sending HTTP request: " ++ err))
    | .ok response =>
      match response.Body with
      | .error err => ("", some ("Error reading response body: " ++ err))
      | .ok body =>
        if response.StatusCode = 200 then
          match env.unmarshalVT body with
          | .error err => ("", some ("Error parsing JSON response: " ++ err))
          | .ok vtResponse =>
            let lastAnalysisResults := vtResponse.Data.Attributes.LastAnalysisResults
            if lastAnalysisResults.length = 0 then
              ("No analysis results available.", none)
            else
              -- the scan report is assembled and then dropped, as in the source
              let _responseBuilder := lastAnalysisResults.foldl
                (fun sb er => sb ++ "Engine: " ++ er.1 ++ ", Result: " ++ er.2 ++ "\n")
                "Scan results:\n"
              ("Positive Found: This is a malware 💀", none)
        else
          ("", some ("Non-OK response code: " ++ toString response.StatusCode))

/-! ## Effects of the dispatcher -/

/-- What the update loop does to the outside, in order. -/
inductive Action where
  /-- Go `bot.Send` of a text message, with or without the force-reply markup. -/
  | send (chatID : Int) (text : String) (forceReply : Bool)
  /-- A call `checkPwned(email, key)`. -/
  | callCheckPwned (email : String) (key : String)
  /-- A call `checkMalware(hash, key)`. -/
  | callCheckMalware (hash : String) (key : String)
  /-- A call `updateConfigFile(content)`. -/
  | callUpdateConfigFile (content : String)
deriving DecidableEq, Repr

def sendMessage (chatID : Int) (text : String) : List Action :=
  [.send chatID text false]

def askForConfigFile (chatID : Int) : List Action :=
  [.send chatID "Please send your configuration file (config.json)." false]

def askForEmail (chatID : Int) : List Action :=
  [.send chatID "Please enter your email address:" true]

def askForFileHash (chatID : Int) : List Action :=
  [.send chatID "Please enter the hash of the file:" true]

def updateConfigFile (env : Env) (disk : Disk) (configFileContent : String) :
    Disk × Option String :=
  match env.WriteFile "config.json" configFileContent with
  | .ok => (fun name => if name = "config.json" then some configFileContent else disk name, none)
  | .failed err left =>
    (fun name => if name = "config.json" then left else disk name,
      some ("Error updating config file: " ++ err))

def downloadFile (env : Env) (url : String) : Except String String :=
  match env.Get url with
  | .error err => .error ("Error downloading file: " ++ err)
  | .ok response =>
    match response.Body with
    | .error err => .error ("Error reading response body: " ++ err)
    | .ok body => .ok body

/-- State of the update loop: the `config` variable of `main` and the disk. -/
structure LoopState where
  config : Config
  disk : Disk

/-- The document branch of the loop body (lines 263-289 of `main`). -/
def documentBranch (env : Env) (s : LoopState) (msg : Message) : LoopState × List Action :=
  match msg.Document with
  | none => (s, [])
  | some document =>
    let documentID := document.FileID
    match env.GetFile documentID with
    | .error _ => (s, sendMessage s.config.ChatID "An error occurred while getting the file.")
    | .ok file =>
      let fileURL := "https://api.telegram.org/file/bot" ++ s.config.TelegramBotToken ++ "/" ++
        file.FilePath
      -- the error of `downloadFile` is overwritten before it is read; on failure
      -- the content is the nil slice, whose string is empty
      let fileContent := match downloadFile env fileURL with
        | .ok body => body
        | .error _ => ""
      match updateConfigFile env s.disk fileContent with
      | (disk1, some _) =>
        ({ s with disk := disk1 },
          [.callUpdateConfigFile fileContent] ++
          sendMessage s.config.ChatID "An error occurred while updating the config file.")
      | (disk1, none) =>
        ({ s with disk := disk1 },
          [.callUpdateConfigFile fileContent] ++
          sendMessage s.config.ChatID
            "Gnom...Gnom...Config file eaten successfully. /checkmalware or /checkpwned")

/-- The command switch of the loop body (lines 228-233 of `main`). -/
def commandSwitch (msg : Message) : List Action :=
  if HasPrefix msg.Text "/checkpwned" then askForEmail msg.Chat.ID
  else if HasPrefix msg.Text "/checkmalware" then askForFileHash msg.Chat.ID
  else []

/-- One iteration of `for update := range updates` in `main`.  A `continue`
of the source is a branch that returns without running the rest. -/
def processUpdate (env : Env) (s : LoopState) (update : Update) : LoopState × List Action :=
  match update.Message with
  | none => (s, [])
  | some msg =>
    let acts := commandSwitch msg
    if (match msg.ReplyToMessage with
        | some r => HasPrefix r.Text "Please enter your email address:"
        | none => false) then
      let emailInput := TrimSpace msg.Text
      match checkPwned env emailInput s.config.HIBPAPIKey with
      | (_, some _) =>
        (s, acts ++ [.callCheckPwned emailInput s.config.HIBPAPIKey] ++
          sendMessage msg.Chat.ID "An error occurred while checking the pwned status.")
      | (result, none) =>
        let (s1, docActs) := documentBranch env s msg
        (s1, acts ++ [.callCheckPwned emailInput s.config.HIBPAPIKey] ++
          sendMessage msg.Chat.ID result ++ docActs)
    else if (match msg.ReplyToMessage with
        | some r => decide (r.Text = "Please enter the hash of the file:")
        | none => false) then
      let hashInput := TrimSpace msg.Text
      match checkMalware env hashInput s.config.VTAPIKey with
      | (_, some _) =>
        (s, acts ++ [.callCheckMalware hashInput s.config.VTAPIKey] ++
          sendMessage msg.Chat.ID "An error occurred while checking for malware.")
      | (result, none) =>
        let (s1, docActs) := documentBranch env s msg
        (s1, acts ++ [.callCheckMalware hashInput s.config.VTAPIKey] ++
          sendMessage msg.Chat.ID result ++ docActs)
    else
      let (s1, docActs) := documentBranch env s msg
      (s1, acts ++ docActs)

/-- The update loop over a finite stretch of the update channel; every update
comes with the behaviour of the outside world while it is handled. -/
def runLoop (s : LoopState) : List (Env × Update) → LoopState × List Action
  | [] => (s, [])
  | (env, update) :: rest =>
    let (s1, acts1) := processUpdate env s update
    let (s2, acts2) := runLoop s1 rest
    (s2, acts1 ++ acts2)

/-- Go `main`: start-up, then the update loop.  A fatal start-up error ends the
process before anything is sent. -/
def main (env0 : Env) (disk : Disk) (updates : List (Env × Update)) : List Action :=
  match loadConfig env0 disk "config.json" with
  | (_, some _) => []
  | (config, none) =>
    match env0.NewBotAPI config.TelegramBotToken with
    | some _ => []
    | none =>
      sendMessage config.ChatID
        "Chomp, chomp... Kaonashi is hungry, upload config.json with API Key!" ++
      askForConfigFile config.ChatID ++
      (runLoop ⟨config, disk⟩ updates).2

/-! ## Observations on the actions of a run -/

/-- Whether an action is a call of one of the two lookups. -/
def Action.isLookup : Action → Bool
  | .callCheckPwned _ _ => true
  | .callCheckMalware _ _ => true
  | _ => false

/-- The lookup calls among some actions, in order. -/
def lookups (acts : List Action) : List Action :=
  acts.filter Action.isLookup

/-- The outbound chat messages among some actions, in order: conversation and text. -/
def outbound (acts : List Action) : List (Int × String) :=
  acts.filterMap fun a =>
    match a with
    | .send chatID text _ => some (chatID, text)
    | _ => none

/-- The reply rule of the loop body taken alone (lines 235-261 of `main`): its
actions, and whether it left the iteration through `continue`. -/
def replyRule (env : Env) (config : Config) (msg : Message) : List Action × Bool :=
  match msg.ReplyToMessage with
  | none => ([], false)
  | some r =>
    if HasPrefix r.Text "Please enter your email address:" then
      match checkPwned env (TrimSpace msg.Text) config.HIBPAPIKey with
      | (_, some _) =>
        ([.callCheckPwned (TrimSpace msg.Text) config.HIBPAPIKey,
          .send msg.Chat.ID "An error occurred while checking the pwned status." false], true)
      | (result, none) =>
        ([.callCheckPwned (TrimSpace msg.Text) config.HIBPAPIKey,
          .send msg.Chat.ID result false], false)
    else if r.Text = "Please enter the hash of the file:" then
      match checkMalware env (TrimSpace msg.Text) config.VTAPIKey with
      | (_, some _) =>
        ([.callCheckMalware (TrimSpace msg.Text) config.VTAPIKey,
          .send msg.Chat.ID "An error occurred while checking for malware." false], true)
      | (result, none) =>
        ([.callCheckMalware (TrimSpace msg.Text) config.VTAPIKey,
          .send msg.Chat.ID result false], false)
    else ([], false)

/-- Whether a decoded configuration has all four fields: a field that the
payload lacks is left at its zero value by the decoder. -/
def Config.complete (c : Config) : Bool :=
  c.TelegramBotToken != "" && c.ChatID != 0 && c.HIBPAPIKey != "" && c.VTAPIKey != ""

/-- The payloads C8 is about: the text does not decode to a configuration, or
it decodes to one that lacks one of the four fields. -/
def invalidPayload (env : Env) (payload : String) : Bool :=
  match env.unmarshalConfig payload with
  | .error _ => true
  | .ok c => !c.complete

/-! ## Concrete worlds

Values at which the statements below are instantiated.  The three sample
decoders agree with `json.Unmarshal` on the texts they are applied to. -/

def startConfigJSON : String :=
  "\x7b\"telegram_bot_token\":\"123456:ABC\",\"chat_id\":42," ++
  "\"hibp_api_key\":\"hibp-key-at-start\",\"vt_api_key\":\"vt-key-at-start\"\x7d"

def uploadedConfigJSON : String :=
  "\x7b\"telegram_bot_token\":\"123456:ABC\",\"chat_id\":42," ++
  "\"hibp_api_key\":\"hibp-key-uploaded\",\"vt_api_key\":\"vt-key-uploaded\"\x7d"

def startConfig : Config := ⟨"123456:ABC", 42, "hibp-key-at-start", "vt-key-at-start"⟩

def uploadedConfig : Config := ⟨"123456:ABC", 42, "hibp-key-uploaded", "vt-key-uploaded"⟩

def twoBreachesJSON : String :=
  "[\x7b\"Name\":\"Adobe\",\"Domain\":\"adobe.com\",\"BreachDate\":\"2013-10-04\"," ++
  "\"Title\":\"Adobe\",\"Description\":\"153 million accounts\"\x7d," ++
  "\x7b\"Name\":\"Dropbox\",\"Domain\":\"dropbox.com\",\"BreachDate\":\"2012-07-01\"," ++
  "\"Title\":\"Dropbox\",\"Description\":\"68 million accounts\"\x7d]"

def twoBreaches : List Breach :=
  [⟨"Adobe", "adobe.com", "2013-10-04", "Adobe", "153 million accounts"⟩,
   ⟨"Dropbox", "dropbox.com", "2012-07-01", "Dropbox", "68 million accounts"⟩]

def vtFlaggedJSON : String :=
  "\x7b\"data\":\x7b\"id\":\"d41d\",\"type\":\"file\",\"attributes\":" ++
  "\x7b\"last_analysis_results\":\x7b\"Avast\":\"malicious\"\x7d\x7d\x7d\x7d"

def vtEmptyJSON : String :=
  "\x7b\"data\":\x7b\"id\":\"d41d\",\"type\":\"file\",\"attributes\":" ++
  "\x7b\"last_analysis_results\":\x7b\x7d\x7d\x7d\x7d"

/-- A configuration document that holds the chat id and none of the three
other fields. -/
def chatOnlyConfigJSON : String := "\x7b\"chat_id\":42\x7d"

def sampleUnmarshalConfig (text : String) : Except String Config :=
  if text = startConfigJSON then .ok startConfig
  else if text = uploadedConfigJSON then .ok uploadedConfig
  else if text = chatOnlyConfigJSON then .ok ⟨"", 42, "", ""⟩
  else if text = "" then .error "unexpected end of JSON input"
  else if text = "not json" then
    .error "invalid character \x27o\x27 in literal null (expecting \x27u\x27)"
  else .error "invalid JSON"

def sampleUnmarshalBreaches (text : String) : Except String (List Breach) :=
  if text = "[]" then .ok []
  else if text = twoBreachesJSON then .ok twoBreaches
  else if text = "" then .error "unexpected end of JSON input"
  else .error "invalid JSON"

def sampleUnmarshalVT (text : String) : Except String VirusTotalResponse :=
  if text = vtFlaggedJSON then .ok ⟨⟨"d41d", "file", ⟨[("Avast", "malicious")]⟩⟩⟩
  else if text = vtEmptyJSON then .ok ⟨⟨"d41d", "file", ⟨[]⟩⟩⟩
  else .error "invalid JSON"

/-- A world in which every lookup request is answered by `lookup`, every file
download delivers `download`, and file references and writes succeed. -/
def sampleEnv (lookup : Response) (download : String) : Env where
  NewRequest := fun method url => .ok ⟨method, url, []⟩
  Do := fun _ => .ok lookup
  Get := fun _ => .ok ⟨200, .ok download⟩
  GetFile := fun fileID => .ok ⟨"documents/" ++ fileID⟩
  WriteFile := fun _ _ => .ok
  NewBotAPI := fun _ => none
  unmarshalBreaches := sampleUnmarshalBreaches
  unmarshalVT := sampleUnmarshalVT
  unmarshalConfig := sampleUnmarshalConfig

/-- The breach service and the malware service both answer 404. -/
def notFoundEnv : Env := sampleEnv ⟨404, .ok ""⟩ ""

/-- The lookup service answers 500. -/
def serverErrorEnv : Env := sampleEnv ⟨500, .ok "oops"⟩ ""

def startState : LoopState :=
  ⟨startConfig, fun name => if name = "config.json" then some startConfigJSON else none⟩

/-- A plain message of conversation 7. -/
def textMessage (text : String) : Message := ⟨text, ⟨7⟩, none, none⟩

/-- A message of conversation 7 that replies to a message with text `repliedTo`. -/
def replyMessage (text repliedTo : String) : Message := ⟨text, ⟨7⟩, some ⟨repliedTo⟩, none⟩

/-- A message of conversation 7 that carries a document and no text. -/
def documentMessage (fileID : String) : Message := ⟨"", ⟨7⟩, none, some ⟨fileID⟩⟩

/-- A message of conversation 7 that carries a document and replies to a
message with text `repliedTo`. -/
def replyWithDocument (repliedTo fileID : String) : Message :=
  ⟨"", ⟨7⟩, some ⟨repliedTo⟩, some ⟨fileID⟩⟩

/-! ## Basic facts -/

theorem HasPrefix_iff (s p : String) : HasPrefix s p = true ↔ ∃ t : String, s = p ++ t := by
  unfold HasPrefix
  rw [List.isPrefixOf_iff_prefix]
  constructor
  · rintro ⟨t, ht⟩
    exact ⟨⟨t⟩, by rw [String.ext_iff]; simp [← ht]⟩
  · rintro ⟨t, rfl⟩
    exact ⟨t.data, by simp⟩

theorem lookups_append (a b : List Action) : lookups (a ++ b) = lookups a ++ lookups b := by
  simp [lookups]

theorem lookups_commandSwitch (msg : Message) : lookups (commandSwitch msg) = [] := by
  unfold commandSwitch askForEmail askForFileHash
  split_ifs <;> simp [lookups, Action.isLookup]

theorem lookups_documentBranch (env : Env) (s : LoopState) (msg : Message) :
    lookups (documentBranch env s msg).2 = [] := by
  unfold documentBranch
  cases msg.Document with
  | none => simp [lookups]
  | some document =>
    simp only
    cases env.GetFile document.FileID with
    | error e => simp [lookups, sendMessage, Action.isLookup]
    | ok file =>
      simp only
      split <;> simp [lookups, sendMessage, Action.isLookup]

theorem documentBranch_config (env : Env) (s : LoopState) (msg : Message) :
    (documentBranch env s msg).1.config = s.config := by
  unfold documentBranch
  cases msg.Document with
  | none => rfl
  | some document =>
    simp only
    cases env.GetFile document.FileID with
    | error e => rfl
    | ok file =>
      simp only
      split <;> rfl

/-- The actions of the document branch do not depend on the disk. -/
theorem documentBranch_actions_congr (env : Env) (s t : LoopState) (msg : Message)
    (h : s.config = t.config) :
    (documentBranch env s msg).2 = (documentBranch env t msg).2 := by
  unfold documentBranch
  cases msg.Document with
  | none => rfl
  | some document =>
    simp only
    cases env.GetFile document.FileID with
    | error e => simp [h]
    | ok file =>
      simp only [h]
      unfold updateConfigFile
      cases env.WriteFile "config.json" _ <;> rfl

/-- The loop body is the command switch, then the reply rule, then (unless the
reply rule left through `continue`) the document branch. -/
theorem processUpdate_actions (env : Env) (s : LoopState) (msg : Message) :
    (processUpdate env s ⟨some msg⟩).2 =
      commandSwitch msg ++ (replyRule env s.config msg).1 ++
        (if (replyRule env s.config msg).2 then [] else (documentBranch env s msg).2) := by
  unfold processUpdate replyRule
  cases hr : msg.ReplyToMessage with
  | none => simp [hr]
  | some r =>
    simp only [sendMessage, hr]
    by_cases h1 : HasPrefix r.Text "Please enter your email address:" = true
    · simp only [h1, if_true]
      rcases hc : checkPwned env (TrimSpace msg.Text) s.config.HIBPAPIKey with ⟨res, _ | e⟩ <;> simp
    · simp only [h1, if_false]
      by_cases h2 : r.Text = "Please enter the hash of the file:"
      · simp only [h2, decide_True, if_true]
        rcases hc : checkMalware env (TrimSpace msg.Text) s.config.VTAPIKey with ⟨res, _ | e⟩ <;> simp
      · simp [h2]

theorem processUpdate_config (env : Env) (s : LoopState) (update : Update) :
    (processUpdate env s update).1.config = s.config := by
  unfold processUpdate
  cases update.Message with
  | none => rfl
  | some msg =>
    simp only
    split_ifs
    · split
      · rfl
      · exact documentBranch_config env s msg
    · split
      · rfl
      · exact documentBranch_config env s msg
    · exact documentBranch_config env s msg

theorem runLoop_config (s : LoopState) (events : List (Env × Update)) :
    (runLoop s events).1.config = s.config := by
  induction events generalizing s with
  | nil => rfl
  | cons e rest ih =>
    obtain ⟨env, update⟩ := e
    simp only [runLoop]
    rw [ih, processUpdate_config]

theorem processUpdate_actions_congr (env : Env) (s t : LoopState) (update : Update)
    (h : s.config = t.config) :
    (processUpdate env s update).2 = (processUpdate env t update).2 := by
  obtain ⟨m⟩ := update
  cases m with
  | none => rfl
  | some msg =>
    rw [processUpdate_actions, processUpdate_actions, h,
      documentBranch_actions_congr env s t msg h]

theorem lookups_replyRule (env : Env) (config : Config) (msg : Message) :
    lookups (replyRule env config msg).1 =
      match msg.ReplyToMessage with
      | none => []
      | some r =>
        if HasPrefix r.Text "Please enter your email address:" then
          [.callCheckPwned (TrimSpace msg.Text) config.HIBPAPIKey]
        else if r.Text = "Please enter the hash of the file:" then
          [.callCheckMalware (TrimSpace msg.Text) config.VTAPIKey]
        else [] := by
  unfold replyRule
  cases msg.ReplyToMessage with
  | none => rfl
  | some r =>
    simp only
    split_ifs
    · split <;> simp [lookups, Action.isLookup]
    · split <;> simp [lookups, Action.isLookup]
    · rfl

/-- The lookup calls of one iteration are decided by the replied-to text alone. -/
theorem lookups_processUpdate (env : Env) (s : LoopState) (msg : Message) :
    lookups (processUpdate env s ⟨some msg⟩).2 =
      match msg.ReplyToMessage with
      | none => []
      | some r =>
        if HasPrefix r.Text "Please enter your email address:" then
          [.callCheckPwned (TrimSpace msg.Text) s.config.HIBPAPIKey]
        else if r.Text = "Please enter the hash of the file:" then
          [.callCheckMalware (TrimSpace msg.Text) s.config.VTAPIKey]
        else [] := by
  rw [processUpdate_actions, lookups_append, lookups_append, lookups_commandSwitch,
    lookups_replyRule]
  have hd : lookups (if (replyRule env s.config msg).2 then []
      else (documentBranch env s msg).2) = [] := by
    split_ifs
    · rfl
    · exact lookups_documentBranch env s msg
  rw [hd]
  simp

theorem mem_lookups (a : Action) (acts : List Action) :
    a ∈ lookups acts ↔ a ∈ acts ∧ a.isLookup = true := by
  simp [lookups, List.mem_filter]

theorem email_prompt_not_hash_prompt :
    HasPrefix "Please enter the hash of the file:" "Please enter your email address:" = false := by
  decide

theorem checkpwned_call_iff (acts : List Action) :
    (∃ email key, Action.callCheckPwned email key ∈ acts) ↔
      ∃ email key, Action.callCheckPwned email key ∈ lookups acts := by
  simp [mem_lookups, Action.isLookup]

theorem checkmalware_call_iff (acts : List Action) :
    (∃ hash key, Action.callCheckMalware hash key ∈ acts) ↔
      ∃ hash key, Action.callCheckMalware hash key ∈ lookups acts := by
  simp [mem_lookups, Action.isLookup]

/-! ## C1: classification of replies -/

/-- C1.  For every inbound message, `checkPwned` is called if and only if the
message has a replied-to message whose text starts with
"Please enter your email address:", and `checkMalware` is called if and only if
it has a replied-to message whose text equals
"Please enter the hash of the file:"; never both; a message without replied-to
message calls neither; an update without message does nothing. -/
theorem dispatch_classifies_reply (env : Env) (s : LoopState) (msg : Message) :
    ((∃ email key, Action.callCheckPwned email key ∈ (processUpdate env s ⟨some msg⟩).2) ↔
      ∃ r rest, msg.ReplyToMessage = some r ∧
        r.Text = "Please enter your email address:" ++ rest) ∧
    ((∃ hash key, Action.callCheckMalware hash key ∈ (processUpdate env s ⟨some msg⟩).2) ↔
      ∃ r, msg.ReplyToMessage = some r ∧ r.Text = "Please enter the hash of the file:") ∧
    ¬ ((∃ email key, Action.callCheckPwned email key ∈ (processUpdate env s ⟨some msg⟩).2) ∧
       (∃ hash key, Action.callCheckMalware hash key ∈ (processUpdate env s ⟨some msg⟩).2)) ∧
    lookups (processUpdate env s ⟨some { msg with ReplyToMessage := none }⟩).2 = [] ∧
    (processUpdate env s ⟨none⟩).2 = [] := by
  have hP : (∃ email key, Action.callCheckPwned email key ∈ (processUpdate env s ⟨some msg⟩).2) ↔
      ∃ r, msg.ReplyToMessage = some r ∧
        HasPrefix r.Text "Please enter your email address:" = true := by
    rw [checkpwned_call_iff, lookups_processUpdate]
    cases msg.ReplyToMessage with
    | none => simp
    | some r =>
      by_cases h1 : HasPrefix r.Text "Please enter your email address:" = true
      · simp [h1]
      · by_cases h2 : r.Text = "Please enter the hash of the file:"
        · simp [h2, email_prompt_not_hash_prompt]
        · simp [h1, h2]
  have hM : (∃ hash key, Action.callCheckMalware hash key ∈ (processUpdate env s ⟨some msg⟩).2) ↔
      ∃ r, msg.ReplyToMessage = some r ∧ r.Text = "Please enter the hash of the file:" := by
    rw [checkmalware_call_iff, lookups_processUpdate]
    cases msg.ReplyToMessage with
    | none => simp
    | some r =>
      by_cases h2 : r.Text = "Please enter the hash of the file:"
      · simp [h2, email_prompt_not_hash_prompt]
      · by_cases h1 : HasPrefix r.Text "Please enter your email address:" = true <;>
          simp [h1, h2]
  refine ⟨?_, hM, ?_, ?_, rfl⟩
  · rw [hP]
    constructor
    · rintro ⟨r, hr, hp⟩
      obtain ⟨t, ht⟩ := (HasPrefix_iff _ _).1 hp
      exact ⟨r, t, hr, ht⟩
    · rintro ⟨r, t, hr, ht⟩
      exact ⟨r, hr, (HasPrefix_iff _ _).2 ⟨t, ht⟩⟩
  · rw [hP, hM]
    rintro ⟨⟨r, hr, hp⟩, ⟨r2, hr2, ht⟩⟩
    rw [hr] at hr2
    cases hr2
    rw [ht, email_prompt_not_hash_prompt] at hp
    exact Bool.noConfusion hp
  · rw [lookups_processUpdate]

/-- C1 at a reply to the email prompt followed by a note: the breach lookup is called. -/
theorem dispatch_classifies_reply_witness :
    ∃ email key, Action.callCheckPwned email key ∈
      (processUpdate notFoundEnv startState
        ⟨some (replyMessage "a@b.c" "Please enter your email address: (work)")⟩).2 :=
  (dispatch_classifies_reply notFoundEnv startState
    (replyMessage "a@b.c" "Please enter your email address: (work)")).1.2
    ⟨⟨"Please enter your email address: (work)"⟩, " (work)", rfl, by decide⟩

/-! ## C2: a prompt is answered by the lookup of its own kind -/

theorem checkmalware_not_checkpwned (t : String) (h : HasPrefix t "/checkmalware" = true) :
    HasPrefix t "/checkpwned" = false := by
  obtain ⟨x, rfl⟩ := (HasPrefix_iff _ _).1 h
  cases x
  rfl

theorem processUpdate_after_history (s : LoopState) (pre : List (Env × Update)) (env : Env)
    (update : Update) :
    (processUpdate env (runLoop s pre).1 update).2 = (processUpdate env s update).2 :=
  processUpdate_actions_congr env _ _ update (runLoop_config s pre)

/-- C2.  Whatever updates `pre` were processed before, a message replying to
the text sent by `askForEmail` calls `checkPwned` on its trimmed text and calls
no other lookup, and a message replying to the text sent by `askForFileHash`
calls `checkMalware` on its trimmed text and calls no other lookup; the two
prompts are what `/checkpwned` and `/checkmalware` make the loop send. -/
theorem prompt_reply_routed_to_own_lookup (s : LoopState) (pre : List (Env × Update))
    (env : Env) (msg : Message) (r : RepliedMessage) (chatID : Int)
    (hr : msg.ReplyToMessage = some r) :
    ((chatID, r.Text) ∈ outbound (askForEmail chatID) →
      lookups (processUpdate env (runLoop s pre).1 ⟨some msg⟩).2 =
        [.callCheckPwned (TrimSpace msg.Text) s.config.HIBPAPIKey]) ∧
    ((chatID, r.Text) ∈ outbound (askForFileHash chatID) →
      lookups (processUpdate env (runLoop s pre).1 ⟨some msg⟩).2 =
        [.callCheckMalware (TrimSpace msg.Text) s.config.VTAPIKey]) ∧
    (∀ cmd : Message, HasPrefix cmd.Text "/checkpwned" = true →
      askForEmail cmd.Chat.ID <+: (processUpdate env s ⟨some cmd⟩).2) ∧
    (∀ cmd : Message, HasPrefix cmd.Text "/checkmalware" = true →
      askForFileHash cmd.Chat.ID <+: (processUpdate env s ⟨some cmd⟩).2) := by
  refine ⟨?_, ?_, ?_, ?_⟩
  · intro h
    have ht : r.Text = "Please enter your email address:" := by
      simpa [outbound, askForEmail] using h
    rw [processUpdate_after_history, lookups_processUpdate, hr]
    simp only [ht]
    rfl
  · intro h
    have ht : r.Text = "Please enter the hash of the file:" := by
      simpa [outbound, askForFileHash] using h
    rw [processUpdate_after_history, lookups_processUpdate, hr]
    simp only [ht]
    rfl
  · intro cmd hc
    rw [processUpdate_actions, List.append_assoc]
    have : commandSwitch cmd = askForEmail cmd.Chat.ID := by simp [commandSwitch, hc]
    rw [this]
    exact List.prefix_append _ _
  · intro cmd hc
    rw [processUpdate_actions, List.append_assoc]
    have : commandSwitch cmd = askForFileHash cmd.Chat.ID := by
      simp [commandSwitch, hc, checkmalware_not_checkpwned cmd.Text hc]
    rw [this]
    exact List.prefix_append _ _

/-- C2 at a reply to the email prompt in conversation 7, after a `/checkpwned`
command and an unrelated message. -/
theorem prompt_reply_routed_to_own_lookup_witness :
    (replyMessage "  a@b.c \n" "Please enter your email address:").ReplyToMessage =
        some ⟨"Please enter your email address:"⟩ ∧
    ((7, "Please enter your email address:") ∈ outbound (askForEmail 7)) ∧
    lookups (processUpdate notFoundEnv
      (runLoop startState [(notFoundEnv, ⟨some (textMessage "/checkpwned")⟩),
        (serverErrorEnv, ⟨some (textMessage "hello")⟩)]).1
      ⟨some (replyMessage "  a@b.c \n" "Please enter your email address:")⟩).2 =
      [.callCheckPwned "a@b.c" "hibp-key-at-start"] :=
  ⟨rfl, by decide,
    (prompt_reply_routed_to_own_lookup startState
      [(notFoundEnv, ⟨some (textMessage "/checkpwned")⟩),
        (serverErrorEnv, ⟨some (textMessage "hello")⟩)]
      notFoundEnv (replyMessage "  a@b.c \n" "Please enter your email address:")
      ⟨"Please enter your email address:"⟩ 7 rfl).1 (by decide)⟩

/-! ## C3: replies are correlated by text, not by the pending prompt -/

/-- C3, as stated, fails.  In conversation 7, after `/checkpwned` followed by
`/checkmalware` (two prompts sent, the hash prompt last), a message replying to
the email prompt text still calls `checkPwned` and is answered; the same reply
is handled the same way when no prompt was ever issued. -/
theorem stale_email_prompt_reply_is_answered :
    (runLoop startState [(notFoundEnv, ⟨some (textMessage "/checkpwned")⟩),
        (notFoundEnv, ⟨some (textMessage "/checkmalware")⟩)]).2 =
      [.send 7 "Please enter your email address:" true,
       .send 7 "Please enter the hash of the file:" true] ∧
    (processUpdate notFoundEnv
      (runLoop startState [(notFoundEnv, ⟨some (textMessage "/checkpwned")⟩),
        (notFoundEnv, ⟨some (textMessage "/checkmalware")⟩)]).1
      ⟨some (replyMessage "a@b.c" "Please enter your email address:")⟩).2 =
      [.callCheckPwned "a@b.c" "hibp-key-at-start",
       .send 7 "Good news! Your email has not been pwned." false] ∧
    (processUpdate notFoundEnv startState
      ⟨some (replyMessage "a@b.c" "Please enter your email address:")⟩).2 =
      [.callCheckPwned "a@b.c" "hibp-key-at-start",
       .send 7 "Good news! Your email has not been pwned." false] := by
  refine ⟨rfl, rfl, rfl⟩

/-- C3, amended.  The handling of a message does not depend on the updates
processed before it (no pending prompt is kept).  A reply whose replied-to text
neither starts with the email prompt text nor equals the hash prompt text is
ignored by the reply rule: no lookup is called and the only actions are those
of the command switch and of the document branch, so a plain reply of that kind
sends nothing.  A reply to the email (hash) prompt text calls the breach
(malware) lookup after any history. -/
theorem reply_correlated_by_text_only (s : LoopState) (pre : List (Env × Update))
    (env : Env) (msg : Message) (r : RepliedMessage) (hr : msg.ReplyToMessage = some r) :
    (processUpdate env (runLoop s pre).1 ⟨some msg⟩).2 = (processUpdate env s ⟨some msg⟩).2 ∧
    (HasPrefix r.Text "Please enter your email address:" = false →
      r.Text ≠ "Please enter the hash of the file:" →
        lookups (processUpdate env (runLoop s pre).1 ⟨some msg⟩).2 = [] ∧
        (processUpdate env (runLoop s pre).1 ⟨some msg⟩).2 =
          commandSwitch msg ++ (documentBranch env s msg).2 ∧
        (HasPrefix msg.Text "/checkpwned" = false → HasPrefix msg.Text "/checkmalware" = false →
          msg.Document = none →
            (processUpdate env (runLoop s pre).1 ⟨some msg⟩).2 = [])) ∧
    (HasPrefix r.Text "Please enter your email address:" = true →
      lookups (processUpdate env (runLoop s pre).1 ⟨some msg⟩).2 =
        [.callCheckPwned (TrimSpace msg.Text) s.config.HIBPAPIKey]) ∧
    (r.Text = "Please enter the hash of the file:" →
      lookups (processUpdate env (runLoop s pre).1 ⟨some msg⟩).2 =
        [.callCheckMalware (TrimSpace msg.Text) s.config.VTAPIKey]) := by
  refine ⟨processUpdate_after_history s pre env _, ?_, ?_, ?_⟩
  · intro h1 h2
    have hrule : replyRule env s.config msg = ([], false) := by
      simp [replyRule, hr, h1, h2]
    have hacts : (processUpdate env (runLoop s pre).1 ⟨some msg⟩).2 =
        commandSwitch msg ++ (documentBranch env s msg).2 := by
      rw [processUpdate_after_history, processUpdate_actions, hrule]
      simp
    refine ⟨?_, hacts, ?_⟩
    · rw [processUpdate_after_history, lookups_processUpdate, hr]
      simp [h1, h2]
    · intro c1 c2 hd
      rw [hacts]
      simp [commandSwitch, c1, c2, documentBranch, hd]
  · intro h1
    rw [processUpdate_after_history, lookups_processUpdate, hr]
    simp [h1]
  · intro h2
    rw [processUpdate_after_history, lookups_processUpdate, hr]
    simp [h2, email_prompt_not_hash_prompt]

/-- C3 amended, at a reply to an unrelated text after two commands. -/
theorem reply_correlated_by_text_only_witness :
    (replyMessage "a@b.c" "What is your email?").ReplyToMessage =
        some ⟨"What is your email?"⟩ ∧
    (processUpdate serverErrorEnv
      (runLoop startState [(notFoundEnv, ⟨some (textMessage "/checkpwned")⟩),
        (notFoundEnv, ⟨some (textMessage "/checkmalware")⟩)]).1
      ⟨some (replyMessage "a@b.c" "What is your email?")⟩).2 = [] :=
  ⟨rfl,
    ((reply_correlated_by_text_only startState
      [(notFoundEnv, ⟨some (textMessage "/checkpwned")⟩),
        (notFoundEnv, ⟨some (textMessage "/checkmalware")⟩)]
      serverErrorEnv (replyMessage "a@b.c" "What is your email?")
      ⟨"What is your email?"⟩ rfl).2.1 (by decide) (by decide)).2.2
      (by decide) (by decide) rfl⟩

/-! ## C4, C5: the answer of `checkPwned` -/

theorem foldl_append_eq (init : String) (l : List String) :
    l.foldl (fun r x => r ++ x) init = init ++ String.join l := by
  unfold String.join
  induction l generalizing init with
  | nil => simp
  | cons a l ih =>
    simp only [List.foldl_cons]
    rw [ih (init ++ a), ih ("" ++ a), String.append_assoc, String.empty_append]

theorem foldl_builder_eq (f : Breach → String) (init : String) (l : List Breach) :
    l.foldl (fun sb b => sb ++ f b) init = init ++ String.join (l.map f) := by
  rw [← foldl_append_eq, List.foldl_map]

/-- C4.  When the breach service answers 200 and the body decodes to a
non-empty sequence of breaches, `checkPwned` returns, with no error, the header
line and a blank line followed by one block per breach in the order of the
sequence, each block made of the fields Name, Domain, Breach Date and Title;
there are as many blocks as breaches; and breaches that differ only in their
Description give the same text. -/
theorem checkPwned_lists_every_breach (env : Env) (email key : String) (req0 : Request)
    (response : Response) (body : String) (breaches : List Breach)
    (hreq : env.NewRequest "GET" ("https://haveibeenpwned.com/api/v3/breachedaccount/" ++ email ++
      "?truncateResponse=false") = .ok req0)
    (hdo : env.Do (req0.setHeader "hibp-api-key" key) = .ok response)
    (hbody : response.Body = .ok body)
    (hstatus : response.StatusCode = 200)
    (hparse : env.unmarshalBreaches body = .ok breaches)
    (hne : breaches ≠ []) :
    checkPwned env email key =
      ("Your email has been pwned in the following breaches:\n\n" ++
        String.join (breaches.map fun b =>
          "Name: " ++ b.Name ++ "\nDomain: " ++ b.Domain ++ "\nBreach Date: " ++ b.BreachDate ++
          "\nTitle: " ++ b.Title ++ "\n\n"), none) ∧
    (breaches.map fun b =>
          "Name: " ++ b.Name ++ "\nDomain: " ++ b.Domain ++ "\nBreach Date: " ++ b.BreachDate ++
          "\nTitle: " ++ b.Title ++ "\n\n").length = breaches.length ∧
    (∀ (env2 : Env) (req2 : Request) (response2 : Response) (body2 : String)
        (breaches2 : List Breach),
      env2.NewRequest "GET" ("https://haveibeenpwned.com/api/v3/breachedaccount/" ++ email ++
        "?truncateResponse=false") = .ok req2 →
      env2.Do (req2.setHeader "hibp-api-key" key) = .ok response2 →
      response2.Body = .ok body2 → response2.StatusCode = 200 →
      env2.unmarshalBreaches body2 = .ok breaches2 →
      (breaches2.map fun b => { b with Description := "" }) =
        (breaches.map fun b => { b with Description := "" }) →
      checkPwned env2 email key = checkPwned env email key) := by
  have key1 : ∀ (e : Env) (q : Request) (rsp : Response) (bd : String) (bs : List Breach),
      e.NewRequest "GET" ("https://haveibeenpwned.com/api/v3/breachedaccount/" ++ email ++
        "?truncateResponse=false") = .ok q →
      e.Do (q.setHeader "hibp-api-key" key) = .ok rsp →
      rsp.Body = .ok bd → rsp.StatusCode = 200 →
      e.unmarshalBreaches bd = .ok bs → bs ≠ [] →
      checkPwned e email key =
        ("Your email has been pwned in the following breaches:\n\n" ++
          String.join (bs.map breachBlock), none) := by
    intro e q rsp bd bs h1 h2 h3 h4 h5 h6
    have hlen : bs.length ≠ 0 := by simpa using h6
    simp only [checkPwned, h1, h2, h3, h4, h5, if_true, if_neg hlen]
    rw [foldl_builder_eq]
  have hblock : ∀ b : Breach, breachBlock b = breachBlock { b with Description := "" } := by
    intro b; rfl
  refine ⟨key1 env req0 response body breaches hreq hdo hbody hstatus hparse hne, by simp, ?_⟩
  intro env2 req2 response2 body2 breaches2 h1 h2 h3 h4 h5 h6
  have hne2 : breaches2 ≠ [] := by
    intro h0
    rw [h0] at h6
    exact hne (List.map_eq_nil_iff.1 h6.symm)
  rw [key1 env2 req2 response2 body2 breaches2 h1 h2 h3 h4 h5 hne2,
    key1 env req0 response body breaches hreq hdo hbody hstatus hparse hne]
  have e1 : breaches2.map breachBlock =
      (breaches2.map fun b => { b with Description := "" }).map breachBlock := by
    rw [List.map_map]; exact List.map_congr_left fun b _ => hblock b
  have e2 : breaches.map breachBlock =
      (breaches.map fun b => { b with Description := "" }).map breachBlock := by
    rw [List.map_map]; exact List.map_congr_left fun b _ => hblock b
  rw [e1, e2, h6]

/-- C4 at a 200 answer carrying the two sample breaches. -/
theorem checkPwned_lists_every_breach_witness :
    twoBreaches ≠ [] ∧
    checkPwned (sampleEnv ⟨200, .ok twoBreachesJSON⟩ "") "a@b.c" "hibp-key-at-start" =
      ("Your email has been pwned in the following breaches:\n\n" ++
        "Name: Adobe\nDomain: adobe.com\nBreach Date: 2013-10-04\nTitle: Adobe\n\n" ++
        "Name: Dropbox\nDomain: dropbox.com\nBreach Date: 2012-07-01\nTitle: Dropbox\n\n",
        none) :=
  ⟨by decide,
    (checkPwned_lists_every_breach (sampleEnv ⟨200, .ok twoBreachesJSON⟩ "") "a@b.c"
      "hibp-key-at-start"
      ⟨"GET", "https://haveibeenpwned.com/api/v3/breachedaccount/a@b.c?truncateResponse=false", []⟩
      ⟨200, .ok twoBreachesJSON⟩ twoBreachesJSON twoBreaches rfl rfl rfl rfl rfl
      (by decide)).1⟩

/-- C5, as stated, fails.  The breach service answers 200 with an empty body
(zero bytes): the body does not decode, `checkPwned` returns an error and the
empty result, and the conversation gets the failure text, not the not-found
message. -/
theorem checkPwned_empty_body_is_error :
    checkPwned (sampleEnv ⟨200, .ok ""⟩ "") "a@b.c" "hibp-key-at-start" =
      ("", some "Error parsing JSON response: unexpected end of JSON input") ∧
    (processUpdate (sampleEnv ⟨200, .ok ""⟩ "") startState
      ⟨some (replyMessage "a@b.c" "Please enter your email address:")⟩).2 =
      [.callCheckPwned "a@b.c" "hibp-key-at-start",
       .send 7 "An error occurred while checking the pwned status." false] := by
  refine ⟨rfl, rfl⟩

/-- C5, amended.  `checkPwned` returns the same not-found message with no error
when the service answers 404, whatever the body, and when it answers 200 with a
body that decodes to zero breaches; when it answers 200 with a body that does
not decode, as a zero-length body does not, it returns an error and the empty
result. -/
theorem checkPwned_not_found (env : Env) (email key : String) (req0 : Request)
    (response : Response) (body : String)
    (hreq : env.NewRequest "GET" ("https://haveibeenpwned.com/api/v3/breachedaccount/" ++ email ++
      "?truncateResponse=false") = .ok req0)
    (hdo : env.Do (req0.setHeader "hibp-api-key" key) = .ok response)
    (hbody : response.Body = .ok body) :
    (response.StatusCode = 404 →
      checkPwned env email key = ("Good news! Your email has not been pwned.", none)) ∧
    (response.StatusCode = 200 → env.unmarshalBreaches body = .ok [] →
      checkPwned env email key = ("Good news! Your email has not been pwned.", none)) ∧
    (response.StatusCode = 200 → ∀ err, env.unmarshalBreaches body = .error err →
      checkPwned env email key = ("", some ("Error parsing JSON response: " ++ err))) := by
  refine ⟨?_, ?_, ?_⟩
  · intro h404
    have h200 : ¬ response.StatusCode = 200 := by rw [h404]; decide
    simp only [checkPwned, hreq, hdo, hbody]
    rw [if_neg h200, if_pos h404]
  · intro h200 hparse
    simp only [checkPwned, hreq, hdo, hbody, h200, hparse, if_true, List.length_nil]
  · intro h200 err hparse
    simp only [checkPwned, hreq, hdo, hbody, h200, hparse, if_true]

/-- C5 amended, at a 404 answer with a non-empty body, at a 200 answer with
body `[]` and at a 200 answer with an empty body. -/
theorem checkPwned_not_found_witness :
    checkPwned (sampleEnv ⟨404, .ok "no such account"⟩ "") "a@b.c" "hibp-key-at-start" =
      ("Good news! Your email has not been pwned.", none) ∧
    checkPwned (sampleEnv ⟨200, .ok "[]"⟩ "") "a@b.c" "hibp-key-at-start" =
      ("Good news! Your email has not been pwned.", none) ∧
    checkPwned (sampleEnv ⟨200, .ok ""⟩ "") "a@b.c" "hibp-key-at-start" =
      ("", some ("Error parsing JSON response: " ++ "unexpected end of JSON input")) :=
  ⟨(checkPwned_not_found (sampleEnv ⟨404, .ok "no such account"⟩ "") "a@b.c" "hibp-key-at-start"
      ⟨"GET", "https://haveibeenpwned.com/api/v3/breachedaccount/a@b.c?truncateResponse=false", []⟩
      ⟨404, .ok "no such account"⟩ "no such account" rfl rfl rfl).1 rfl,
   (checkPwned_not_found (sampleEnv ⟨200, .ok "[]"⟩ "") "a@b.c" "hibp-key-at-start"
      ⟨"GET", "https://haveibeenpwned.com/api/v3/breachedaccount/a@b.c?truncateResponse=false", []⟩
      ⟨200, .ok "[]"⟩ "[]" rfl rfl rfl).2.1 rfl rfl,
   (checkPwned_not_found (sampleEnv ⟨200, .ok ""⟩ "") "a@b.c" "hibp-key-at-start"
      ⟨"GET", "https://haveibeenpwned.com/api/v3/breachedaccount/a@b.c?truncateResponse=false", []⟩
      ⟨200, .ok ""⟩ "" rfl rfl rfl).2.2 rfl "unexpected end of JSON input" rfl⟩

/-! ## C7: the verdict of `checkMalware` -/

/-- C7, as stated, fails.  On a 200 answer whose body decodes to an empty
analysis-results map, `checkMalware` returns "No analysis results available.",
not the positive message. -/
theorem checkMalware_empty_map_not_positive :
    checkMalware (sampleEnv ⟨200, .ok vtEmptyJSON⟩ "") "d41d8cd98f00b204e9800998ecf8427e"
        "vt-key-at-start" = ("No analysis results available.", none) ∧
    (checkMalware (sampleEnv ⟨200, .ok vtEmptyJSON⟩ "") "d41d8cd98f00b204e9800998ecf8427e"
        "vt-key-at-start").1 ≠ "Positive Found: This is a malware 💀" := by
  constructor
  · rfl
  · decide

/-- C7, amended.  When the malware service answers 200 and the body decodes,
`checkMalware` returns the positive message with no error whenever the
analysis-results map is non-empty, whatever its entries are, and returns
"No analysis results available." with no error when the map is empty. -/
theorem checkMalware_positive_iff_results (env : Env) (hash key : String) (req0 : Request)
    (response : Response) (body : String) (vtResponse : VirusTotalResponse)
    (hreq : env.NewRequest "GET" ("https://www.virustotal.com/api/v3/files/" ++ hash) = .ok req0)
    (hdo : env.Do (req0.setHeader "x-apikey" key) = .ok response)
    (hbody : response.Body = .ok body)
    (hstatus : response.StatusCode = 200)
    (hparse : env.unmarshalVT body = .ok vtResponse) :
    (vtResponse.Data.Attributes.LastAnalysisResults ≠ [] →
      checkMalware env hash key = ("Positive Found: This is a malware 💀", none)) ∧
    (vtResponse.Data.Attributes.LastAnalysisResults = [] →
      checkMalware env hash key = ("No analysis results available.", none)) := by
  constructor
  · intro hne
    have hlen : vtResponse.Data.Attributes.LastAnalysisResults.length ≠ 0 := by simpa using hne
    simp only [checkMalware, hreq, hdo, hbody, hstatus, hparse, if_true, if_neg hlen]
  · intro he
    simp only [checkMalware, hreq, hdo, hbody, hstatus, hparse, if_true, he, List.length_nil]

/-- C7 amended, at a 200 answer with one engine entry. -/
theorem checkMalware_positive_iff_results_witness :
    checkMalware (sampleEnv ⟨200, .ok vtFlaggedJSON⟩ "") "d41d8cd98f00b204e9800998ecf8427e"
        "vt-key-at-start" = ("Positive Found: This is a malware 💀", none) :=
  (checkMalware_positive_iff_results (sampleEnv ⟨200, .ok vtFlaggedJSON⟩ "")
    "d41d8cd98f00b204e9800998ecf8427e" "vt-key-at-start"
    ⟨"GET", "https://www.virustotal.com/api/v3/files/d41d8cd98f00b204e9800998ecf8427e", []⟩
    ⟨200, .ok vtFlaggedJSON⟩ vtFlaggedJSON ⟨⟨"d41d", "file", ⟨[("Avast", "malicious")]⟩⟩⟩
    rfl rfl rfl rfl rfl).1 (by decide)

/-! ## C6: a lookup is answered by its result or by the generic failure text -/

theorem not_infix_of_head (c : Char) (rest text : List Char) (hc : c ∉ text) :
    ¬ (c :: rest) <:+: text :=
  fun h => hc (h.subset (List.mem_cons_self _ _))

theorem error_text_head (p err : String) (c : Char) (tail : List Char)
    (hp : p.data = c :: tail) : (p ++ err).data = c :: (tail ++ err.data) := by
  simp [String.data_append, hp]

/-- An error of `checkPwned` comes with the empty result, and its text starts
with `E` or `N`. -/
theorem checkPwned_error_shape (env : Env) (email key res reason : String)
    (h : checkPwned env email key = (res, some reason)) :
    res = "" ∧ ∃ c rest, reason.data = c :: rest ∧ (c = 'E' ∨ c = 'N') := by
  simp only [checkPwned] at h
  repeat' split at h
  all_goals
    simp only [Prod.mk.injEq, Option.some.injEq] at h
  all_goals first
    | exact absurd h.2 (by simp)
    | (obtain ⟨rfl, rfl⟩ := h
       refine ⟨rfl, ?_⟩
       first
         | exact ⟨'E', _, error_text_head _ _ 'E' _ rfl, Or.inl rfl⟩
         | exact ⟨'N', _, by simp only [String.append_assoc]; exact error_text_head _ _ 'N' _ rfl,
             Or.inr rfl⟩)

/-- An error of `checkMalware` comes with the empty result, and its text starts
with `E` or `N`. -/
theorem checkMalware_error_shape (env : Env) (hash key res reason : String)
    (h : checkMalware env hash key = (res, some reason)) :
    res = "" ∧ ∃ c rest, reason.data = c :: rest ∧ (c = 'E' ∨ c = 'N') := by
  simp only [checkMalware] at h
  repeat' split at h
  all_goals
    simp only [Prod.mk.injEq, Option.some.injEq] at h
  all_goals first
    | exact absurd h.2 (by simp)
    | (obtain ⟨rfl, rfl⟩ := h
       refine ⟨rfl, ?_⟩
       first
         | exact ⟨'E', _, error_text_head _ _ 'E' _ rfl, Or.inl rfl⟩
         | exact ⟨'N', _, error_text_head _ _ 'N' _ rfl, Or.inr rfl⟩)

theorem outbound_append (a b : List Action) : outbound (a ++ b) = outbound a ++ outbound b := by
  simp [outbound, List.filterMap_append]

theorem commandSwitch_nil (msg : Message) (h1 : HasPrefix msg.Text "/checkpwned" = false)
    (h2 : HasPrefix msg.Text "/checkmalware" = false) : commandSwitch msg = [] := by
  simp [commandSwitch, h1, h2]

theorem documentBranch_nil (env : Env) (s : LoopState) (msg : Message)
    (h : msg.Document = none) : (documentBranch env s msg).2 = [] := by
  simp [documentBranch, h]

/-- C6, as stated, fails.  A message of conversation 7 with text `/checkpwned`
that replies to the email prompt, while the breach service answers 500: the
lookup returns an error and the empty result, and two outbound messages go to
the conversation, the email prompt and then the failure text. -/
theorem failed_lookup_with_command_sends_two :
    checkPwned serverErrorEnv "/checkpwned" "hibp-key-at-start" =
      ("", some "Non-OK response code: 500 - oops") ∧
    (processUpdate serverErrorEnv startState
      ⟨some (replyMessage "/checkpwned" "Please enter your email address:")⟩).2 =
      [.send 7 "Please enter your email address:" true,
       .callCheckPwned "/checkpwned" "hibp-key-at-start",
       .send 7 "An error occurred while checking the pwned status." false] ∧
    (outbound (processUpdate serverErrorEnv startState
      ⟨some (replyMessage "/checkpwned" "Please enter your email address:")⟩).2).length = 2 := by
  refine ⟨rfl, rfl, rfl⟩

/-- C6, amended.  A lookup that fails returns an error and the empty result:
so does `checkPwned` on a status other than 200 and 404 and on a 200 body that
does not decode, and `checkMalware` on a status other than 200 and on a 200 body
that does not decode.  For a correlated reply whose lookup fails, the reply rule
adds the lookup call and one outbound message to the conversation, the fixed
failure text of that lookup, which does not contain the error reason, and the
iteration ends there; when the lookup succeeds the reply rule adds the call and
one outbound message, the result string.  That message is the only outbound
message of the update when the text starts with no recognized command and, on
success, the message carries no document; otherwise the prompt of the command
comes before it and, on success, the actions of the document branch after it. -/
theorem lookup_outcome_is_answered_once (env : Env) (s : LoopState) (msg : Message)
    (r : RepliedMessage) (hr : msg.ReplyToMessage = some r) :
    (∀ email key res reason, checkPwned env email key = (res, some reason) →
      res = "" ∧
      ¬ reason.data <:+: "An error occurred while checking the pwned status.".data) ∧
    (∀ hash key res reason, checkMalware env hash key = (res, some reason) →
      res = "" ∧
      ¬ reason.data <:+: "An error occurred while checking for malware.".data) ∧
    (∀ email key req0 response body,
      env.NewRequest "GET" ("https://haveibeenpwned.com/api/v3/breachedaccount/" ++ email ++
        "?truncateResponse=false") = .ok req0 →
      env.Do (req0.setHeader "hibp-api-key" key) = .ok response →
      response.Body = .ok body →
      (response.StatusCode ≠ 200 → response.StatusCode ≠ 404 →
        checkPwned env email key = ("", some ("Non-OK response code: " ++
          toString response.StatusCode ++ " - " ++ body))) ∧
      (∀ err, response.StatusCode = 200 → env.unmarshalBreaches body = .error err →
        checkPwned env email key = ("", some ("Error parsing JSON response: " ++ err)))) ∧
    (∀ hash key req0 response body,
      env.NewRequest "GET" ("https://www.virustotal.com/api/v3/files/" ++ hash) = .ok req0 →
      env.Do (req0.setHeader "x-apikey" key) = .ok response →
      response.Body = .ok body →
      (response.StatusCode ≠ 200 →
        checkMalware env hash key = ("", some ("Non-OK response code: " ++
          toString response.StatusCode))) ∧
      (∀ err, response.StatusCode = 200 → env.unmarshalVT body = .error err →
        checkMalware env hash key = ("", some ("Error parsing JSON response: " ++ err)))) ∧
    (HasPrefix r.Text "Please enter your email address:" = true →
      (∀ reason, (checkPwned env (TrimSpace msg.Text) s.config.HIBPAPIKey).2 = some reason →
        (processUpdate env s ⟨some msg⟩).2 = commandSwitch msg ++
          [.callCheckPwned (TrimSpace msg.Text) s.config.HIBPAPIKey,
           .send msg.Chat.ID "An error occurred while checking the pwned status." false] ∧
        (HasPrefix msg.Text "/checkpwned" = false → HasPrefix msg.Text "/checkmalware" = false →
          outbound (processUpdate env s ⟨some msg⟩).2 =
            [(msg.Chat.ID, "An error occurred while checking the pwned status.")])) ∧
      ((checkPwned env (TrimSpace msg.Text) s.config.HIBPAPIKey).2 = none →
        (processUpdate env s ⟨some msg⟩).2 = commandSwitch msg ++
          [.callCheckPwned (TrimSpace msg.Text) s.config.HIBPAPIKey,
           .send msg.Chat.ID (checkPwned env (TrimSpace msg.Text) s.config.HIBPAPIKey).1 false] ++
          (documentBranch env s msg).2 ∧
        (HasPrefix msg.Text "/checkpwned" = false → HasPrefix msg.Text "/checkmalware" = false →
          msg.Document = none →
          outbound (processUpdate env s ⟨some msg⟩).2 =
            [(msg.Chat.ID, (checkPwned env (TrimSpace msg.Text) s.config.HIBPAPIKey).1)]))) ∧
    (r.Text = "Please enter the hash of the file:" →
      (∀ reason, (checkMalware env (TrimSpace msg.Text) s.config.VTAPIKey).2 = some reason →
        (processUpdate env s ⟨some msg⟩).2 = commandSwitch msg ++
          [.callCheckMalware (TrimSpace msg.Text) s.config.VTAPIKey,
           .send msg.Chat.ID "An error occurred while checking for malware." false] ∧
        (HasPrefix msg.Text "/checkpwned" = false → HasPrefix msg.Text "/checkmalware" = false →
          outbound (processUpdate env s ⟨some msg⟩).2 =
            [(msg.Chat.ID, "An error occurred while checking for malware.")])) ∧
      ((checkMalware env (TrimSpace msg.Text) s.config.VTAPIKey).2 = none →
        (processUpdate env s ⟨some msg⟩).2 = commandSwitch msg ++
          [.callCheckMalware (TrimSpace msg.Text) s.config.VTAPIKey,
           .send msg.Chat.ID (checkMalware env (TrimSpace msg.Text) s.config.VTAPIKey).1 false] ++
          (documentBranch env s msg).2 ∧
        (HasPrefix msg.Text "/checkpwned" = false → HasPrefix msg.Text "/checkmalware" = false →
          msg.Document = none →
          outbound (processUpdate env s ⟨some msg⟩).2 =
            [(msg.Chat.ID, (checkMalware env (TrimSpace msg.Text) s.config.VTAPIKey).1)]))) := by
  refine ⟨?_, ?_, ?_, ?_, ?_, ?_⟩
  · intro email key res reason h
    obtain ⟨h1, c, rest, hc, hEN⟩ := checkPwned_error_shape env email key res reason h
    refine ⟨h1, ?_⟩
    rw [hc]
    rcases hEN with rfl | rfl
    · exact not_infix_of_head _ _ _ (by decide)
    · exact not_infix_of_head _ _ _ (by decide)
  · intro hash key res reason h
    obtain ⟨h1, c, rest, hc, hEN⟩ := checkMalware_error_shape env hash key res reason h
    refine ⟨h1, ?_⟩
    rw [hc]
    rcases hEN with rfl | rfl
    · exact not_infix_of_head _ _ _ (by decide)
    · exact not_infix_of_head _ _ _ (by decide)
  · intro email key req0 response body hreq hdo hbody
    constructor
    · intro h200 h404
      simp only [checkPwned, hreq, hdo, hbody]
      rw [if_neg h200, if_neg h404]
    · intro err h200 hparse
      simp only [checkPwned, hreq, hdo, hbody, h200, hparse, if_true]
  · intro hash key req0 response body hreq hdo hbody
    constructor
    · intro h200
      simp only [checkMalware, hreq, hdo, hbody]
      rw [if_neg h200]
    · intro err h200 hparse
      simp only [checkMalware, hreq, hdo, hbody, h200, hparse, if_true]
  · intro hp
    constructor
    · intro reason hfail
      have hrule : replyRule env s.config msg =
          ([.callCheckPwned (TrimSpace msg.Text) s.config.HIBPAPIKey,
            .send msg.Chat.ID "An error occurred while checking the pwned status." false],
            true) := by
        rcases hc : checkPwned env (TrimSpace msg.Text) s.config.HIBPAPIKey with ⟨res, _ | e⟩
        · rw [hc] at hfail; cases hfail
        · simp [replyRule, hr, hp, hc]
      have hacts : (processUpdate env s ⟨some msg⟩).2 = commandSwitch msg ++
          [.callCheckPwned (TrimSpace msg.Text) s.config.HIBPAPIKey,
           .send msg.Chat.ID "An error occurred while checking the pwned status." false] := by
        rw [processUpdate_actions, hrule]; simp
      refine ⟨hacts, ?_⟩
      intro c1 c2
      rw [hacts, commandSwitch_nil msg c1 c2]
      rfl
    · intro hok
      have hrule : replyRule env s.config msg =
          ([.callCheckPwned (TrimSpace msg.Text) s.config.HIBPAPIKey,
            .send msg.Chat.ID (checkPwned env (TrimSpace msg.Text) s.config.HIBPAPIKey).1 false],
            false) := by
        rcases hc : checkPwned env (TrimSpace msg.Text) s.config.HIBPAPIKey with ⟨res, _ | e⟩
        · simp [replyRule, hr, hp, hc]
        · rw [hc] at hok; cases hok
      have hacts : (processUpdate env s ⟨some msg⟩).2 = commandSwitch msg ++
          [.callCheckPwned (TrimSpace msg.Text) s.config.HIBPAPIKey,
           .send msg.Chat.ID (checkPwned env (TrimSpace msg.Text) s.config.HIBPAPIKey).1 false] ++
          (documentBranch env s msg).2 := by
        rw [processUpdate_actions, hrule]; simp
      refine ⟨hacts, ?_⟩
      intro c1 c2 hd
      rw [hacts, commandSwitch_nil msg c1 c2, documentBranch_nil env s msg hd]
      rfl
  · intro ht
    have hp : HasPrefix r.Text "Please enter your email address:" = false := by
      rw [ht]; exact email_prompt_not_hash_prompt
    constructor
    · intro reason hfail
      have hrule : replyRule env s.config msg =
          ([.callCheckMalware (TrimSpace msg.Text) s.config.VTAPIKey,
            .send msg.Chat.ID "An error occurred while checking for malware." false],
            true) := by
        rcases hc : checkMalware env (TrimSpace msg.Text) s.config.VTAPIKey with ⟨res, _ | e⟩
        · rw [hc] at hfail; cases hfail
        · simp [replyRule, hr, ht, hc, email_prompt_not_hash_prompt]
      have hacts : (processUpdate env s ⟨some msg⟩).2 = commandSwitch msg ++
          [.callCheckMalware (TrimSpace msg.Text) s.config.VTAPIKey,
           .send msg.Chat.ID "An error occurred while checking for malware." false] := by
        rw [processUpdate_actions, hrule]; simp
      refine ⟨hacts, ?_⟩
      intro c1 c2
      rw [hacts, commandSwitch_nil msg c1 c2]
      rfl
    · intro hok
      have hrule : replyRule env s.config msg =
          ([.callCheckMalware (TrimSpace msg.Text) s.config.VTAPIKey,
            .send msg.Chat.ID (checkMalware env (TrimSpace msg.Text) s.config.VTAPIKey).1 false],
            false) := by
        rcases hc : checkMalware env (TrimSpace msg.Text) s.config.VTAPIKey with ⟨res, _ | e⟩
        · simp [replyRule, hr, ht, hc, email_prompt_not_hash_prompt]
        · rw [hc] at hok; cases hok
      have hacts : (processUpdate env s ⟨some msg⟩).2 = commandSwitch msg ++
          [.callCheckMalware (TrimSpace msg.Text) s.config.VTAPIKey,
           .send msg.Chat.ID (checkMalware env (TrimSpace msg.Text) s.config.VTAPIKey).1 false] ++
          (documentBranch env s msg).2 := by
        rw [processUpdate_actions, hrule]; simp
      refine ⟨hacts, ?_⟩
      intro c1 c2 hd
      rw [hacts, commandSwitch_nil msg c1 c2, documentBranch_nil env s msg hd]
      rfl

/-- C6 amended, at a plain reply to the email prompt while the breach service
answers 500. -/
theorem lookup_outcome_is_answered_once_witness :
    (replyMessage "a@b.c" "Please enter your email address:").ReplyToMessage =
        some ⟨"Please enter your email address:"⟩ ∧
    outbound (processUpdate serverErrorEnv startState
      ⟨some (replyMessage "a@b.c" "Please enter your email address:")⟩).2 =
      [(7, "An error occurred while checking the pwned status.")] :=
  ⟨rfl,
    (((lookup_outcome_is_answered_once serverErrorEnv startState
      (replyMessage "a@b.c" "Please enter your email address:")
      ⟨"Please enter your email address:"⟩ rfl).2.2.2.2.1 (by decide)).1
      "Non-OK response code: 500 - oops" rfl).2 (by decide) (by decide)⟩

/-! ## C8, C9: the configuration upload -/

/-- C8, as stated, fails.  A document whose content is the text `not json`,
which does not decode to a configuration, is acknowledged with the success
message, and `config.json` is overwritten with it, so that a later `loadConfig`
fails. -/
theorem unparseable_upload_is_acknowledged :
    invalidPayload (sampleEnv ⟨404, .ok ""⟩ "not json") "not json" = true ∧
    (processUpdate (sampleEnv ⟨404, .ok ""⟩ "not json") startState
      ⟨some (documentMessage "file-1")⟩).2 =
      [.callUpdateConfigFile "not json",
       .send 42 "Gnom...Gnom...Config file eaten successfully. /checkmalware or /checkpwned"
         false] ∧
    startState.disk "config.json" = some startConfigJSON ∧
    (processUpdate (sampleEnv ⟨404, .ok ""⟩ "not json") startState
      ⟨some (documentMessage "file-1")⟩).1.disk "config.json" = some "not json" ∧
    (loadConfig (sampleEnv ⟨404, .ok ""⟩ "not json")
      (processUpdate (sampleEnv ⟨404, .ok ""⟩ "not json") startState
        ⟨some (documentMessage "file-1")⟩).1.disk "config.json").2 =
      some ("Error unmarshalling config file: " ++
        "invalid character \x27o\x27 in literal null (expecting \x27u\x27)") := by
  refine ⟨rfl, rfl, rfl, rfl, rfl⟩

/-- C8, amended.  Let an uploaded payload be unparseable or lack one of the
four fields, and let its file reference be obtained and its content be
downloaded.  The flow does not validate it: when the write succeeds the success
acknowledgment is sent to the configured chat, `config.json` holds exactly the
payload (the whole file is replaced) and no other file changes; when the write
fails the update-failure text is sent instead; in both cases the `config`
variable of the loop keeps its value. -/
theorem invalid_upload_stored_verbatim (env : Env) (s : LoopState) (msg : Message)
    (document : Document) (file : File) (payload : String)
    (hd : msg.Document = some document)
    (hf : env.GetFile document.FileID = .ok file)
    (hdl : downloadFile env ("https://api.telegram.org/file/bot" ++ s.config.TelegramBotToken ++
      "/" ++ file.FilePath) = .ok payload)
    (_hinv : invalidPayload env payload = true) :
    (env.WriteFile "config.json" payload = .ok →
      (documentBranch env s msg).2 = [.callUpdateConfigFile payload,
        .send s.config.ChatID
          "Gnom...Gnom...Config file eaten successfully. /checkmalware or /checkpwned" false] ∧
      (documentBranch env s msg).1.disk "config.json" = some payload ∧
      (∀ name, name ≠ "config.json" → (documentBranch env s msg).1.disk name = s.disk name)) ∧
    (∀ reason left, env.WriteFile "config.json" payload = .failed reason left →
      (documentBranch env s msg).2 = [.callUpdateConfigFile payload,
        .send s.config.ChatID "An error occurred while updating the config file." false]) ∧
    (documentBranch env s msg).1.config = s.config ∧
    (processUpdate env s ⟨some msg⟩).1.config = s.config := by
  refine ⟨?_, ?_, documentBranch_config env s msg, processUpdate_config env s _⟩
  · intro hw
    simp only [documentBranch, hd, hf, hdl, updateConfigFile, hw, sendMessage]
    refine ⟨rfl, by simp, ?_⟩
    intro name hn
    simp [hn]
  · intro reason left hw
    simp only [documentBranch, hd, hf, hdl, updateConfigFile, hw, sendMessage]
    rfl

/-- C8 amended, at the upload of a document that holds the chat id and none of
the three other fields. -/
theorem invalid_upload_stored_verbatim_witness :
    (documentMessage "file-1").Document = some ⟨"file-1"⟩ ∧
    invalidPayload (sampleEnv ⟨404, .ok ""⟩ chatOnlyConfigJSON) chatOnlyConfigJSON = true ∧
    (documentBranch (sampleEnv ⟨404, .ok ""⟩ chatOnlyConfigJSON) startState
      (documentMessage "file-1")).2 = [.callUpdateConfigFile chatOnlyConfigJSON,
        .send 42 "Gnom...Gnom...Config file eaten successfully. /checkmalware or /checkpwned"
          false] ∧
    (documentBranch (sampleEnv ⟨404, .ok ""⟩ chatOnlyConfigJSON) startState
      (documentMessage "file-1")).1.disk "config.json" = some chatOnlyConfigJSON :=
  ⟨rfl, rfl,
    ((invalid_upload_stored_verbatim (sampleEnv ⟨404, .ok ""⟩ chatOnlyConfigJSON) startState
      (documentMessage "file-1") ⟨"file-1"⟩ ⟨"documents/file-1"⟩ chatOnlyConfigJSON
      rfl rfl rfl rfl).1 rfl).1,
    ((invalid_upload_stored_verbatim (sampleEnv ⟨404, .ok ""⟩ chatOnlyConfigJSON) startState
      (documentMessage "file-1") ⟨"file-1"⟩ ⟨"documents/file-1"⟩ chatOnlyConfigJSON
      rfl rfl rfl rfl).1 rfl).2.1⟩

/-- C9 on the code.  The process starts with the breach-service key
`hibp-key-at-start`.  A valid configuration with the key `hibp-key-uploaded` is
uploaded and acknowledged, and `config.json` now decodes to it; the reply to the
email prompt that follows is still looked up with `hibp-key-at-start`. -/
theorem lookup_after_upload_uses_start_key :
    (runLoop startState
      [(sampleEnv ⟨404, .ok ""⟩ uploadedConfigJSON, ⟨some (documentMessage "file-1")⟩),
       (notFoundEnv, ⟨some (replyMessage "a@b.c" "Please enter your email address:")⟩)]).2 =
      [.callUpdateConfigFile uploadedConfigJSON,
       .send 42 "Gnom...Gnom...Config file eaten successfully. /checkmalware or /checkpwned"
         false,
       .callCheckPwned "a@b.c" "hibp-key-at-start",
       .send 7 "Good news! Your email has not been pwned." false] ∧
    loadConfig notFoundEnv (runLoop startState
      [(sampleEnv ⟨404, .ok ""⟩ uploadedConfigJSON, ⟨some (documentMessage "file-1")⟩),
       (notFoundEnv, ⟨some (replyMessage "a@b.c" "Please enter your email address:")⟩)]).1.disk
      "config.json" = (uploadedConfig, none) ∧
    uploadedConfig.HIBPAPIKey = "hibp-key-uploaded" ∧
    startState.config.HIBPAPIKey = "hibp-key-at-start" ∧
    main notFoundEnv startState.disk
      [(sampleEnv ⟨404, .ok ""⟩ uploadedConfigJSON, ⟨some (documentMessage "file-1")⟩),
       (notFoundEnv, ⟨some (replyMessage "a@b.c" "Please enter your email address:")⟩)] =
      [.send 42 "Chomp, chomp... Kaonashi is hungry, upload config.json with API Key!" false,
       .send 42 "Please send your configuration file (config.json)." false,
       .callUpdateConfigFile uploadedConfigJSON,
       .send 42 "Gnom...Gnom...Config file eaten successfully. /checkmalware or /checkpwned"
         false,
       .callCheckPwned "a@b.c" "hibp-key-at-start",
       .send 7 "Good news! Your email has not been pwned." false] := by
  refine ⟨rfl, rfl, rfl, rfl, rfl⟩

/-! ## C10: which rules fire for one update -/

theorem processUpdate_state (env : Env) (s : LoopState) (msg : Message) :
    (processUpdate env s ⟨some msg⟩).1 =
      if (replyRule env s.config msg).2 then s else (documentBranch env s msg).1 := by
  unfold processUpdate replyRule
  cases hr : msg.ReplyToMessage with
  | none => simp [hr]
  | some r =>
    simp only [sendMessage, hr]
    by_cases h1 : HasPrefix r.Text "Please enter your email address:" = true
    · simp only [h1, if_true]
      rcases hc : checkPwned env (TrimSpace msg.Text) s.config.HIBPAPIKey with ⟨res, _ | e⟩ <;> simp
    · simp only [h1, if_false]
      by_cases h2 : r.Text = "Please enter the hash of the file:"
      · simp only [h2, decide_True, if_true]
        rcases hc : checkMalware env (TrimSpace msg.Text) s.config.VTAPIKey with ⟨res, _ | e⟩ <;> simp
      · simp [h2]

theorem replyRule_failed_iff (env : Env) (config : Config) (msg : Message) :
    (replyRule env config msg).2 = true ↔
      ∃ r, msg.ReplyToMessage = some r ∧
        ((HasPrefix r.Text "Please enter your email address:" = true ∧
            (checkPwned env (TrimSpace msg.Text) config.HIBPAPIKey).2 ≠ none) ∨
         (r.Text = "Please enter the hash of the file:" ∧
            (checkMalware env (TrimSpace msg.Text) config.VTAPIKey).2 ≠ none)) := by
  unfold replyRule
  cases msg.ReplyToMessage with
  | none => simp
  | some r =>
    by_cases h2 : r.Text = "Please enter the hash of the file:"
    · rcases hc : checkMalware env (TrimSpace msg.Text) config.VTAPIKey with ⟨res, _ | e⟩ <;>
        simp [h2, email_prompt_not_hash_prompt, hc]
    · by_cases h1 : HasPrefix r.Text "Please enter your email address:" = true
      · rcases hc : checkPwned env (TrimSpace msg.Text) config.HIBPAPIKey with ⟨res, _ | e⟩ <;>
          simp [h1, h2, hc]
      · simp [h1, h2]

/-- C10, as stated, fails.  A message that carries a document and replies to
the email prompt, while the breach service answers 500: the failure text is
sent and the configuration-replace flow is not run (`updateConfigFile` is not
called and `config.json` keeps its content), although the document branch taken
alone would store the document and acknowledge it. -/
theorem failed_lookup_skips_document :
    (replyWithDocument "Please enter your email address:" "file-1").Document =
      some ⟨"file-1"⟩ ∧
    (processUpdate (sampleEnv ⟨500, .ok "oops"⟩ uploadedConfigJSON) startState
      ⟨some (replyWithDocument "Please enter your email address:" "file-1")⟩).2 =
      [.callCheckPwned "" "hibp-key-at-start",
       .send 7 "An error occurred while checking the pwned status." false] ∧
    (processUpdate (sampleEnv ⟨500, .ok "oops"⟩ uploadedConfigJSON) startState
      ⟨some (replyWithDocument "Please enter your email address:" "file-1")⟩).1.disk
      "config.json" = some startConfigJSON ∧
    (documentBranch (sampleEnv ⟨500, .ok "oops"⟩ uploadedConfigJSON) startState
      (replyWithDocument "Please enter your email address:" "file-1")).2 =
      [.callUpdateConfigFile uploadedConfigJSON,
       .send 42 "Gnom...Gnom...Config file eaten successfully. /checkmalware or /checkpwned"
         false] := by
  refine ⟨rfl, rfl, rfl, rfl⟩

/-- C10, amended.  For every inbound message the actions are those of the
command switch, then those of the reply rule, then those of the document
branch unless the reply rule ended in a failed lookup.  The command switch
sends the prompt of a recognized command and the reply rule runs the lookup of
a correlated reply, each whatever the other rules do; the reply rule ends in a
failed lookup exactly when the message is a correlated reply whose lookup
returns an error, and in that case the state is unchanged and the document
branch is skipped; otherwise the document branch gives the next state. -/
theorem rules_fire_until_failed_lookup (env : Env) (s : LoopState) (msg : Message) :
    (processUpdate env s ⟨some msg⟩).2 =
      commandSwitch msg ++ (replyRule env s.config msg).1 ++
        (if (replyRule env s.config msg).2 then [] else (documentBranch env s msg).2) ∧
    (processUpdate env s ⟨some msg⟩).1 =
      (if (replyRule env s.config msg).2 then s else (documentBranch env s msg).1) ∧
    (HasPrefix msg.Text "/checkpwned" = true → commandSwitch msg = askForEmail msg.Chat.ID) ∧
    (HasPrefix msg.Text "/checkmalware" = true →
      commandSwitch msg = askForFileHash msg.Chat.ID) ∧
    (∀ r, msg.ReplyToMessage = some r →
      (HasPrefix r.Text "Please enter your email address:" = true →
        lookups (replyRule env s.config msg).1 =
          [.callCheckPwned (TrimSpace msg.Text) s.config.HIBPAPIKey]) ∧
      (r.Text = "Please enter the hash of the file:" →
        lookups (replyRule env s.config msg).1 =
          [.callCheckMalware (TrimSpace msg.Text) s.config.VTAPIKey])) ∧
    ((replyRule env s.config msg).2 = true ↔
      ∃ r, msg.ReplyToMessage = some r ∧
        ((HasPrefix r.Text "Please enter your email address:" = true ∧
            (checkPwned env (TrimSpace msg.Text) s.config.HIBPAPIKey).2 ≠ none) ∨
         (r.Text = "Please enter the hash of the file:" ∧
            (checkMalware env (TrimSpace msg.Text) s.config.VTAPIKey).2 ≠ none))) := by
  refine ⟨processUpdate_actions env s msg, processUpdate_state env s msg, ?_, ?_, ?_,
    replyRule_failed_iff env s.config msg⟩
  · intro hc
    simp [commandSwitch, hc]
  · intro hc
    simp [commandSwitch, hc, checkmalware_not_checkpwned msg.Text hc]
  · intro r hr
    rw [lookups_replyRule, hr]
    constructor
    · intro h1
      simp [h1]
    · intro h2
      simp [h2, email_prompt_not_hash_prompt]

/-- C10 amended, at a message that is a command, a reply to the hash prompt and
a document at once, while the lookup succeeds: all three rules fire. -/
theorem rules_fire_until_failed_lookup_witness :
    (processUpdate (sampleEnv ⟨200, .ok vtFlaggedJSON⟩ uploadedConfigJSON) startState
      ⟨some ⟨"/checkmalware", ⟨7⟩, some ⟨"Please enter the hash of the file:"⟩,
        some ⟨"file-1"⟩⟩⟩).2 =
      [.send 7 "Please enter the hash of the file:" true,
       .callCheckMalware "/checkmalware" "vt-key-at-start",
       .send 7 "Positive Found: This is a malware 💀" false,
       .callUpdateConfigFile uploadedConfigJSON,
       .send 42 "Gnom...Gnom...Config file eaten successfully. /checkmalware or /checkpwned"
         false] :=
  (rules_fire_until_failed_lookup (sampleEnv ⟨200, .ok vtFlaggedJSON⟩ uploadedConfigJSON)
    startState ⟨"/checkmalware", ⟨7⟩, some ⟨"Please enter the hash of the file:"⟩,
      some ⟨"file-1"⟩⟩).1

end Kaonashi
